import Mathlib

/-!
Verification development for the claude-code-proxy gateway.

The repository's `src/` tree contains the two `cmd/proxy/main.go` entrypoint
variants, the Dockerfile and the Makefile.  The Model Router, Format
Translator, Provider and Storage implementations live outside `src/`, so the
definitions for those components are modelled from the specification's words
(each such definition carries a doc comment starting `Modelled from the
spec:`).  The entrypoint wiring (providers, router, legacy Anthropic service,
SQLite storage, HTTP routes, CORS, SPA fallback, shutdown) is embedded
directly from the two `main.go` files.
-/

/-! ## Format Translator (modelled from the spec, §3 and §4.1) -/

/-- Modelled from the spec: `TranslationError` — the translator's failure
value, carrying a stable, user-facing message (§4.1 Failure). -/
structure TranslationError where
  msg : String
deriving DecidableEq

/-- Modelled from the spec: canonical message roles, §3 CanonicalRequest:
"role ∈ \x7bsystem, user, assistant, tool\x7d". -/
inductive CRole
  | system
  | user
  | assistant
  | tool
deriving DecidableEq

/-- Modelled from the spec: a typed content block of a canonical message
(§3: "content — text or structured content blocks"; §4.1: tool_use,
tool_result and multi-modal blocks).  Argument payloads of tool calls are
carried as opaque strings, never reparsed (§4.1). -/
inductive CBlock
  | text (s : String)
  | image (media : String) (data : String)
  | toolUse (id : String) (name : String) (arguments : String)
  | toolResult (id : String) (content : String)
deriving DecidableEq

/-- Modelled from the spec: one canonical message (§3). -/
structure CMessage where
  role : CRole
  content : List CBlock
deriving DecidableEq

/-- Modelled from the spec: sampling parameters of a canonical request
(§3: temperature, max tokens, top-p, stop sequences).  Temperature and
top-p are carried as opaque decimal strings. -/
structure SamplingParams where
  temperature : Option String
  maxTokens : Option Nat
  topP : Option String
  stopSequences : List String
deriving DecidableEq

/-- Modelled from the spec: a tool/function definition attached to a request
(§3: "optional tool/function definitions"); the JSON schema is opaque. -/
structure CToolDef where
  name : String
  description : String
  schemaJson : String
deriving DecidableEq

/-- Modelled from the spec: the translation-neutral canonical request all
wire formats funnel through (§3 CanonicalRequest). -/
structure CanonicalRequest where
  model : String
  messages : List CMessage
  tools : List CToolDef
  params : SamplingParams
  stream : Bool
deriving DecidableEq

/-- Modelled from the spec: an entry of OpenAI's `tool_calls` array (§4.1). -/
structure OAIToolCall where
  id : String
  name : String
  arguments : String
deriving DecidableEq

/-- Modelled from the spec: one message of the OpenAI chat-completions wire
schema; the role is a wire-level string, `tool_call_id` is present on tool
messages (§4.1). -/
structure OAIMessage where
  role : String
  content : String
  toolCalls : List OAIToolCall
  toolCallId : Option String
deriving DecidableEq

/-- Modelled from the spec: an OpenAI tool definition (function name,
description, opaque JSON schema). -/
structure OAITool where
  name : String
  description : String
  schemaJson : String
deriving DecidableEq

/-- Modelled from the spec: the OpenAI chat-completions request wire format
(§4.1, §6 `POST /v1/chat/completions`). -/
structure OpenAIRequest where
  model : String
  messages : List OAIMessage
  tools : List OAITool
  temperature : Option String
  maxTokens : Option Nat
  topP : Option String
  stop : List String
  stream : Bool
deriving DecidableEq

/-- Modelled from the spec: a typed content block of the Anthropic messages
wire schema (§4.1: text, multi-modal, tool_use, tool_result blocks). -/
inductive ABlock
  | text (s : String)
  | image (media : String) (data : String)
  | toolUse (id : String) (name : String) (arguments : String)
  | toolResult (id : String) (content : String)
deriving DecidableEq

/-- Modelled from the spec: one message of the Anthropic messages wire
schema; wire roles are user/assistant, the system prompt lives in a
dedicated top-level field (§4.1). -/
structure AMessage where
  role : String
  content : List ABlock
deriving DecidableEq

/-- Modelled from the spec: an Anthropic tool definition. -/
structure ATool where
  name : String
  description : String
  schemaJson : String
deriving DecidableEq

/-- Modelled from the spec: the Anthropic messages request wire format with
its dedicated top-level `system` field (§4.1, §6 `POST /v1/messages`). -/
structure AnthropicRequest where
  model : String
  system : Option String
  messages : List AMessage
  tools : List ATool
  temperature : Option String
  maxTokens : Option Nat
  topP : Option String
  stopSequences : List String
  stream : Bool
deriving DecidableEq

/-- Modelled from the spec: translate one OpenAI wire message to canonical
form (§4.1): system/user messages carry text, an assistant message's
`tool_calls` become `tool_use` blocks, a `tool` role message becomes a
canonical tool message holding a `tool_result` block, and an unknown role
is rejected with a `TranslationError` (fail loud, §4.1 Failure). -/
def oaiMessageToCanonical (m : OAIMessage) : Except TranslationError CMessage :=
  if m.role = "system" then
    if m.toolCalls = [] ∧ m.toolCallId = none then
      .ok ⟨.system, [.text m.content]⟩
    else .error ⟨"system message cannot carry tool calls"⟩
  else if m.role = "user" then
    if m.toolCalls = [] ∧ m.toolCallId = none then
      .ok ⟨.user, [.text m.content]⟩
    else .error ⟨"user message cannot carry tool calls"⟩
  else if m.role = "assistant" then
    if m.toolCallId = none then
      .ok ⟨.assistant,
        .text m.content :: m.toolCalls.map (fun tc => .toolUse tc.id tc.name tc.arguments)⟩
    else .error ⟨"assistant message cannot carry tool_call_id"⟩
  else if m.role = "tool" then
    match m.toolCallId with
    | some i =>
      if m.toolCalls = [] then .ok ⟨.tool, [.toolResult i m.content]⟩
      else .error ⟨"tool message cannot carry tool calls"⟩
    | none => .error ⟨"tool message requires tool_call_id"⟩
  else .error ⟨"unknown role"⟩

/-- Modelled from the spec: recover OpenAI `tool_calls` from the trailing
`tool_use` blocks of a canonical assistant message; any other block type is
absent in that position of the OpenAI schema and is rejected (§4.1: a block
type absent in the target format produces a `TranslationError`). -/
def toolCallsOfBlocks : List CBlock → Except TranslationError (List OAIToolCall)
  | [] => .ok []
  | .toolUse i n a :: rest =>
    match toolCallsOfBlocks rest with
    | .ok tcs => .ok (⟨i, n, a⟩ :: tcs)
    | .error e => .error e
  | _ => .error ⟨"block not representable as an OpenAI tool call"⟩

/-- Modelled from the spec: serialize one canonical message into the OpenAI
wire schema, rejecting shapes the schema cannot losslessly encode (§3
invariant, §4.1). -/
def canonicalMessageToOAI (c : CMessage) : Except TranslationError OAIMessage :=
  match c.role, c.content with
  | .system, [.text s] => .ok ⟨"system", s, [], none⟩
  | .user, [.text s] => .ok ⟨"user", s, [], none⟩
  | .assistant, .text s :: rest =>
    match toolCallsOfBlocks rest with
    | .ok tcs => .ok ⟨"assistant", s, tcs, none⟩
    | .error e => .error e
  | .tool, [.toolResult i s] => .ok ⟨"tool", s, [], some i⟩
  | _, _ => .error ⟨"message not representable in the OpenAI schema"⟩

/-- Modelled from the spec: translate an OpenAI message list, propagating
the first `TranslationError`. -/
def oaiMessagesToCanonical : List OAIMessage → Except TranslationError (List CMessage)
  | [] => .ok []
  | m :: rest =>
    match oaiMessageToCanonical m with
    | .error e => .error e
    | .ok c =>
      match oaiMessagesToCanonical rest with
      | .error e => .error e
      | .ok cs => .ok (c :: cs)

/-- Modelled from the spec: serialize a canonical message list into OpenAI
wire messages, propagating the first `TranslationError`. -/
def canonicalMessagesToOAI : List CMessage → Except TranslationError (List OAIMessage)
  | [] => .ok []
  | c :: rest =>
    match canonicalMessageToOAI c with
    | .error e => .error e
    | .ok m =>
      match canonicalMessagesToOAI rest with
      | .error e => .error e
      | .ok ms => .ok (m :: ms)

/-- Modelled from the spec: `toCanonical(OpenAI, payload)` (§4.1).  An empty
message list violates the canonical invariant and is rejected, not silently
repaired (§3). -/
def toCanonicalOpenAI (r : OpenAIRequest) : Except TranslationError CanonicalRequest :=
  if r.messages = [] then .error ⟨"empty message list"⟩
  else
    match oaiMessagesToCanonical r.messages with
    | .error e => .error e
    | .ok ms =>
      .ok ⟨r.model, ms,
        r.tools.map (fun t => ⟨t.name, t.description, t.schemaJson⟩),
        ⟨r.temperature, r.maxTokens, r.topP, r.stop⟩, r.stream⟩

/-- Modelled from the spec: `fromCanonical(OpenAI, ·)` in the request
direction (§4.1, used by the §8 round-trip property). -/
def fromCanonicalOpenAI (c : CanonicalRequest) : Except TranslationError OpenAIRequest :=
  match canonicalMessagesToOAI c.messages with
  | .error e => .error e
  | .ok ms =>
    .ok ⟨c.model, ms,
      c.tools.map (fun t => ⟨t.name, t.description, t.schemaJson⟩),
      c.params.temperature, c.params.maxTokens, c.params.topP,
      c.params.stopSequences, c.stream⟩

/-- Modelled from the spec: translate the blocks of an Anthropic user
message; `tool_use` and `tool_result` blocks are not user content in this
position and are rejected (§4.1 fail loud). -/
def userBlocksToCanonical : List ABlock → Except TranslationError (List CBlock)
  | [] => .ok []
  | .text s :: rest =>
    match userBlocksToCanonical rest with
    | .ok bs => .ok (.text s :: bs)
    | .error e => .error e
  | .image m d :: rest =>
    match userBlocksToCanonical rest with
    | .ok bs => .ok (.image m d :: bs)
    | .error e => .error e
  | _ => .error ⟨"block not allowed in user message"⟩

/-- Modelled from the spec: serialize canonical user-message blocks back
into Anthropic blocks, rejecting block types with no user-side encoding. -/
def userBlocksFromCanonical : List CBlock → Except TranslationError (List ABlock)
  | [] => .ok []
  | .text s :: rest =>
    match userBlocksFromCanonical rest with
    | .ok bs => .ok (.text s :: bs)
    | .error e => .error e
  | .image m d :: rest =>
    match userBlocksFromCanonical rest with
    | .ok bs => .ok (.image m d :: bs)
    | .error e => .error e
  | _ => .error ⟨"block not encodable in an Anthropic user message"⟩

/-- Modelled from the spec: translate the blocks of an Anthropic assistant
message; `tool_use` blocks are allowed, `tool_result` blocks are not. -/
def assistantBlocksToCanonical : List ABlock → Except TranslationError (List CBlock)
  | [] => .ok []
  | .text s :: rest =>
    match assistantBlocksToCanonical rest with
    | .ok bs => .ok (.text s :: bs)
    | .error e => .error e
  | .image m d :: rest =>
    match assistantBlocksToCanonical rest with
    | .ok bs => .ok (.image m d :: bs)
    | .error e => .error e
  | .toolUse i n a :: rest =>
    match assistantBlocksToCanonical rest with
    | .ok bs => .ok (.toolUse i n a :: bs)
    | .error e => .error e
  | _ => .error ⟨"tool_result block not allowed in assistant message"⟩

/-- Modelled from the spec: serialize canonical assistant-message blocks
back into Anthropic blocks. -/
def assistantBlocksFromCanonical : List CBlock → Except TranslationError (List ABlock)
  | [] => .ok []
  | .text s :: rest =>
    match assistantBlocksFromCanonical rest with
    | .ok bs => .ok (.text s :: bs)
    | .error e => .error e
  | .image m d :: rest =>
    match assistantBlocksFromCanonical rest with
    | .ok bs => .ok (.image m d :: bs)
    | .error e => .error e
  | .toolUse i n a :: rest =>
    match assistantBlocksFromCanonical rest with
    | .ok bs => .ok (.toolUse i n a :: bs)
    | .error e => .error e
  | _ => .error ⟨"tool_result block not encodable in an Anthropic assistant message"⟩

/-- Modelled from the spec: translate one Anthropic wire message (§4.1):
a user message holding exactly one `tool_result` block becomes a canonical
`tool` role message, other user and assistant messages map blockwise, and
any other wire role is rejected. -/
def anthropicMessageToCanonical (m : AMessage) : Except TranslationError CMessage :=
  if m.role = "user" then
    match m.content with
    | [.toolResult i s] => .ok ⟨.tool, [.toolResult i s]⟩
    | blocks =>
      match userBlocksToCanonical blocks with
      | .ok bs => .ok ⟨.user, bs⟩
      | .error e => .error e
  else if m.role = "assistant" then
    match assistantBlocksToCanonical m.content with
    | .ok bs => .ok ⟨.assistant, bs⟩
    | .error e => .error e
  else .error ⟨"unknown role"⟩

/-- Modelled from the spec: serialize one canonical message into the
Anthropic wire schema (§4.1): a canonical `tool` message becomes a user
message holding one `tool_result` block; a stray system message here cannot
be relocated without duplicating the top-level system field, so it is
rejected (relocate, not drop or duplicate). -/
def canonicalMessageToAnthropic (c : CMessage) : Except TranslationError AMessage :=
  match c.role with
  | .system => .error ⟨"system message must be the leading message"⟩
  | .user =>
    match userBlocksFromCanonical c.content with
    | .ok bs => .ok ⟨"user", bs⟩
    | .error e => .error e
  | .assistant =>
    match assistantBlocksFromCanonical c.content with
    | .ok bs => .ok ⟨"assistant", bs⟩
    | .error e => .error e
  | .tool =>
    match c.content with
    | [.toolResult i s] => .ok ⟨"user", [.toolResult i s]⟩
    | _ => .error ⟨"tool message must hold exactly one tool_result block"⟩

/-- Modelled from the spec: translate an Anthropic message list. -/
def anthropicMessagesToCanonical : List AMessage → Except TranslationError (List CMessage)
  | [] => .ok []
  | m :: rest =>
    match anthropicMessageToCanonical m with
    | .error e => .error e
    | .ok c =>
      match anthropicMessagesToCanonical rest with
      | .error e => .error e
      | .ok cs => .ok (c :: cs)

/-- Modelled from the spec: serialize a canonical message list into
Anthropic wire messages. -/
def canonicalMessagesToAnthropic : List CMessage → Except TranslationError (List AMessage)
  | [] => .ok []
  | c :: rest =>
    match canonicalMessageToAnthropic c with
    | .error e => .error e
    | .ok m =>
      match canonicalMessagesToAnthropic rest with
      | .error e => .error e
      | .ok ms => .ok (m :: ms)

/-- Modelled from the spec: `toCanonical(Anthropic, payload)` (§4.1).  The
dedicated top-level `system` field is relocated to a leading canonical
system message (relocate, not drop or duplicate); a request with neither a
system prompt nor messages violates the non-empty invariant (§3). -/
def toCanonicalAnthropic (r : AnthropicRequest) : Except TranslationError CanonicalRequest :=
  if r.system = none ∧ r.messages = [] then .error ⟨"empty message list"⟩
  else
    match anthropicMessagesToCanonical r.messages with
    | .error e => .error e
    | .ok ms =>
      .ok ⟨r.model,
        (match r.system with
         | some s => (⟨.system, [.text s]⟩ : CMessage) :: ms
         | none => ms),
        r.tools.map (fun t => ⟨t.name, t.description, t.schemaJson⟩),
        ⟨r.temperature, r.maxTokens, r.topP, r.stopSequences⟩, r.stream⟩

/-- Modelled from the spec: split a leading system message (one text block)
off a canonical message list, for relocation into Anthropic's top-level
system field. -/
def splitSystem : List CMessage → Option String × List CMessage
  | ⟨.system, [.text s]⟩ :: rest => (some s, rest)
  | ms => (none, ms)

/-- Modelled from the spec: `fromCanonical(Anthropic, ·)` in the request
direction (§4.1, used by the §8 round-trip property). -/
def fromCanonicalAnthropic (c : CanonicalRequest) : Except TranslationError AnthropicRequest :=
  match canonicalMessagesToAnthropic (splitSystem c.messages).2 with
  | .error e => .error e
  | .ok ms =>
    .ok ⟨c.model, (splitSystem c.messages).1, ms,
      c.tools.map (fun t => ⟨t.name, t.description, t.schemaJson⟩),
      c.params.temperature, c.params.maxTokens, c.params.topP,
      c.params.stopSequences, c.stream⟩

/-! ## Model Router: Route (modelled from the spec, §4.2) -/

/-- Modelled from the spec: the router's static, configuration-supplied
mapping table — model identifier → (provider name, upstream model name) —
plus the configured default provider (§4.2), immutable for the process
lifetime. -/
structure ModelRouterTable where
  modelMappings : List (String × String × String)
  defaultProvider : String
deriving DecidableEq

/-- Modelled from the spec: first-match lookup of a model identifier in the
static mapping table (§4.2). -/
def lookupMapping : List (String × String × String) → String → Option (String × String)
  | [], _ => none
  | e :: rest, q => if e.1 = q then some e.2 else lookupMapping rest q

/-- Modelled from the spec: `Route` (§4.2) — look the caller's model
identifier up in the static table; if absent, apply the configured default
provider with the identifier passed through unchanged. -/
def Route (rc : ModelRouterTable) (model : String) : String × String :=
  match lookupMapping rc.modelMappings model with
  | some pm => pm
  | none => (rc.defaultProvider, model)

/-- Modelled from the spec: a concrete router table used to instantiate the
router theorems (one mapped identifier, default provider `openai`). -/
def sampleTable : ModelRouterTable :=
  ⟨[("claude-3-haiku", "anthropic", "claude-3-haiku-20240307")], "openai"⟩

/-! ## Model Router: Execute with retry (modelled from the spec, §4.2/§7) -/

/-- Modelled from the spec: the result of one upstream provider call —
success body, an HTTP status, or a transport failure (§4.2, §7
`ProviderError`). -/
inductive UpstreamResult
  | ok (body : String)
  | httpError (status : Nat)
  | netError (msg : String)
deriving DecidableEq

/-- Modelled from the spec: transient-failure classification (§4.2): network
errors, 5xx upstream responses, and upstream 429 responses are retryable;
everything else is not. -/
def retryable : UpstreamResult → Bool
  | .ok _ => false
  | .httpError s => (decide (500 ≤ s) && decide (s < 600)) || decide (s = 429)
  | .netError _ => true

/-- Modelled from the spec: the caller-visible outcome of `Execute`
(§4.2, §7). -/
inductive ExecOutcome
  | success (body : String)
  | upstreamError (r : UpstreamResult)
  | translationError (e : TranslationError)
deriving DecidableEq

/-- Modelled from the spec: the retry loop of `Execute` (§4.2) — up to the
given number of attempts, retrying transient failures only; the stub maps
the attempt index to that attempt's upstream result.  Returns the final
upstream result and the number of upstream calls issued. -/
def attemptLoop (stub : Nat → UpstreamResult) : Nat → UpstreamResult × Nat
  | 0 => (.netError "no attempts configured", 0)
  | 1 => (stub 0, 1)
  | r + 2 =>
    match stub 0 with
    | .ok body => (.ok body, 1)
    | e =>
      if retryable e then
        let oc := attemptLoop (fun j => stub (j + 1)) (r + 1)
        (oc.1, oc.2 + 1)
      else (e, 1)

/-- Modelled from the spec: `Execute` (§4.2) — translation-in, then the
provider call wrapped in the retry policy, then translation-out.  The
second component counts the upstream calls issued; a `TranslationError`
is never retried (§4.2). -/
def Execute (trIn : Except TranslationError Unit) (stub : Nat → UpstreamResult)
    (trOut : String → Except TranslationError String) (maxRetries : Nat) :
    ExecOutcome × Nat :=
  match trIn with
  | .error e => (.translationError e, 0)
  | .ok _ =>
    match attemptLoop stub maxRetries with
    | (.ok body, calls) =>
      match trOut body with
      | .ok out => (.success out, calls)
      | .error e => (.translationError e, calls)
    | (e, calls) => (.upstreamError e, calls)

/-- Modelled from the spec: the §8 provider stub that fails with a 500
exactly K times, then succeeds. -/
def stub500 (K : Nat) (i : Nat) : UpstreamResult :=
  if i < K then .httpError 500 else .ok "ok-response"

/-! ## Entrypoint embedding (src/proxy/cmd/proxy/main.go and src/unnamed/part_000) -/

/-- Embedded from the entrypoints: the configuration object `config.Load`
returns — provider configs, the legacy Anthropic config, storage config and
server settings; opaque sub-configs are carried as strings. -/
structure AppConfig where
  providersAnthropic : String
  providersOpenAI : String
  anthropic : String
  storage : String
  serverPort : String
  readTimeout : Nat
  writeTimeout : Nat
  idleTimeout : Nat
deriving DecidableEq

/-- Embedded from `provider.NewAnthropicProvider(&cfg.Providers.Anthropic)`:
the Anthropic provider instance, keyed by its config. -/
def NewAnthropicProvider (cfg : String) : String := "anthropic-provider:" ++ cfg

/-- Embedded from `provider.NewOpenAIProvider(&cfg.Providers.OpenAI)`: the
OpenAI provider instance, keyed by its config. -/
def NewOpenAIProvider (cfg : String) : String := "openai-provider:" ++ cfg

/-- Embedded from `service.NewModelRouter(cfg, providers, logger)`: the
model router owns the configuration and the provider registry. -/
structure RouterWiring where
  cfg : AppConfig
  providers : List (String × String)
deriving DecidableEq

/-- Embedded from `service.NewModelRouter`: constructor of the router
wiring. -/
def NewModelRouter (cfg : AppConfig) (providers : List (String × String)) : RouterWiring :=
  ⟨cfg, providers⟩

/-- Embedded from `service.NewAnthropicService(&cfg.Anthropic)`: the legacy
Anthropic forwarding service kept for backward compatibility. -/
def NewAnthropicService (cfg : String) : String := "anthropic-service:" ++ cfg

/-- Embedded from `handler.New(anthropicService, storageService, logger,
modelRouter)`: the gateway handler's wiring.  The legacy Anthropic service
is carried as an `Option` so that its absence is expressible; the
entrypoints always pass one (`some`). -/
structure HandlerWiring where
  anthropicService : Option String
  storageService : String
  modelRouter : RouterWiring
deriving DecidableEq

/-- Embedded from the entrypoints: HTTP methods used in route
registrations. -/
inductive HMethod
  | GET
  | POST
  | DELETE
deriving DecidableEq

/-- Embedded from `handlers.CORS(...)`: allowed origins, methods and
headers. -/
structure CorsCfg where
  allowedOrigins : List String
  allowedMethods : List String
  allowedHeaders : List String
deriving DecidableEq

/-- Embedded from `src/proxy/cmd/proxy/main.go` lines 63–72: the
method-dispatched routes registered with `r.HandleFunc(...).Methods(...)`,
in registration order. -/
def registeredRoutesProxy : List (HMethod × String) :=
  [(.POST, "/v1/chat/completions"),
   (.POST, "/v1/messages"),
   (.GET, "/v1/models"),
   (.GET, "/health"),
   (.GET, "/api/requests"),
   (.DELETE, "/api/requests"),
   (.GET, "/api/conversations"),
   (.GET, "/api/conversations/{id}"),
   (.GET, "/api/conversations/project")]

/-- Embedded from `src/unnamed/part_000` lines 63–72: the method-dispatched
routes registered by the unnamed entrypoint variant, in registration
order. -/
def registeredRoutesUnnamed : List (HMethod × String) :=
  [(.POST, "/v1/chat/completions"),
   (.POST, "/v1/messages"),
   (.GET, "/v1/models"),
   (.GET, "/health"),
   (.GET, "/api/requests"),
   (.DELETE, "/api/requests"),
   (.GET, "/api/conversations"),
   (.GET, "/api/conversations/{id}"),
   (.GET, "/api/conversations/project")]

/-- The HTTP surface stated by the spec (§6), as method–path pairs in the
spec's order. -/
def specSurface : List (HMethod × String) :=
  [(.POST, "/v1/messages"),
   (.POST, "/v1/chat/completions"),
   (.GET, "/v1/models"),
   (.GET, "/health"),
   (.GET, "/api/requests"),
   (.DELETE, "/api/requests"),
   (.GET, "/api/conversations"),
   (.GET, "/api/conversations/{id}"),
   (.GET, "/api/conversations/project")]

/-- Embedded from the entrypoints: everything `main` wires into the running
`http.Server` — providers, router, handler, CORS, routes, the `/assets/`
path-pattern handler, address, timeouts, and the 30-second shutdown
budget. -/
structure ServerSetup where
  providers : List (String × String)
  modelRouter : RouterWiring
  handler : HandlerWiring
  cors : CorsCfg
  usesLoggingMiddleware : Bool
  routes : List (HMethod × String)
  assetPathPatterns : List String
  addr : String
  readTimeout : Nat
  writeTimeout : Nat
  idleTimeout : Nat
  shutdownTimeoutSeconds : Nat
deriving DecidableEq

/-- Embedded from the entrypoints: startup either aborts with a fatal log
(`logger.Fatalf` exits the process) or reaches a running server. -/
inductive StartupResult
  | fatal (msg : String)
  | running (s : ServerSetup)
deriving DecidableEq

/-- Embedded from the entrypoints: the external collaborators `main`
consults — the config loader, the SQLite storage constructor, the embedded
filesystem `fs.Sub` call, and the process environment. -/
structure StartupEnv where
  configResult : Except String AppConfig
  storageResult : Except String String
  subFSResult : Except String Unit
  getenv : String → String

/-- Embedded from `src/proxy/cmd/proxy/main.go` line 117: the proxy
environment variables probed at startup. -/
def proxyEnvVars : List String :=
  ["HTTP_PROXY", "http_proxy", "HTTPS_PROXY", "https_proxy", "NO_PROXY", "no_proxy"]

/-- Embedded from `src/proxy/cmd/proxy/main.go` lines 117–134: the
proxy-detection log block — a header plus one line per set variable, or the
five-line warning when none is set. -/
def proxyDetectLogs (getenv : String → String) : List String :=
  let found := proxyEnvVars.filter (fun v => getenv v != "")
  if found.isEmpty then
    ["⚠️  No HTTP/HTTPS proxy detected. If you are behind a firewall, API calls may fail!",
     "   Set proxy environment variables before starting:",
     "     export HTTP_PROXY=http://your-proxy:port",
     "     export HTTPS_PROXY=http://your-proxy:port",
     "     export NO_PROXY=localhost,127.0.0.1"]
  else
    "⚠️  HTTP/HTTPS proxy detected! All outbound API requests will be routed through:" ::
      found.map (fun v => "   " ++ v ++ "=" ++ getenv v)

/-- Embedded from `src/proxy/cmd/proxy/main.go` lines 137–149: the startup
banner of the proxy entrypoint, including the Claude-Code usage hint. -/
def serverStartLogsProxy (port : String) : List String :=
  ["🚀 Claude Code Monitor Server running on http://localhost:" ++ port,
   "📡 API endpoints available at:",
   "   - POST http://localhost:" ++ port ++ "/v1/messages (Anthropic format)",
   "   - GET  http://localhost:" ++ port ++ "/v1/models",
   "   - GET  http://localhost:" ++ port ++ "/health",
   "🎨 Web UI available at:",
   "   - GET  http://localhost:" ++ port ++ "/ (Request Visualizer)",
   "   - GET  http://localhost:" ++ port ++ "/api/requests (Request API)",
   "",
   "👉 To use with Claude Code, run:",
   "   export ANTHROPIC_BASE_URL=http://localhost:" ++ port,
   "   claude",
   ""]

/-- Embedded from `src/unnamed/part_000` lines 117–124: the startup banner
of the unnamed entrypoint variant. -/
def serverStartLogsUnnamed (port : String) : List String :=
  ["🚀 Claude Code Monitor Server running on http://localhost:" ++ port,
   "📡 API endpoints available at:",
   "   - POST http://localhost:" ++ port ++ "/v1/messages (Anthropic format)",
   "   - GET  http://localhost:" ++ port ++ "/v1/models",
   "   - GET  http://localhost:" ++ port ++ "/health",
   "🎨 Web UI available at:",
   "   - GET  http://localhost:" ++ port ++ "/ (Request Visualizer)",
   "   - GET  http://localhost:" ++ port ++ "/api/requests (Request API)"]

/-- Embedded from `src/proxy/cmd/proxy/main.go` `main` (lines 25–170):
startup wiring — config load, provider construction, model router, legacy
Anthropic service, SQLite storage, handler, CORS, routes, asset serving and
server settings.  Returns the startup outcome (a `logger.Fatalf` exit or
the constructed server) together with the startup log lines. -/
def mainProxy (env : StartupEnv) : StartupResult × List String :=
  match env.configResult with
  | .error e =>
    (.fatal ("❌ Failed to load configuration: " ++ e),
     ["❌ Failed to load configuration: " ++ e])
  | .ok cfg =>
    let providers := [("anthropic", NewAnthropicProvider cfg.providersAnthropic),
                      ("openai", NewOpenAIProvider cfg.providersOpenAI)]
    let modelRouter := NewModelRouter cfg providers
    let anthropicService := NewAnthropicService cfg.anthropic
    match env.storageResult with
    | .error e =>
      (.fatal ("❌ Failed to initialize SQLite storage: " ++ e),
       ["❌ Failed to initialize SQLite storage: " ++ e])
    | .ok storageService =>
      let h : HandlerWiring := ⟨some anthropicService, storageService, modelRouter⟩
      let cors : CorsCfg := ⟨["*"], ["GET", "POST", "PUT", "DELETE", "OPTIONS"], ["*"]⟩
      match env.subFSResult with
      | .error e =>
        (.fatal ("❌ Failed to create sub filesystem: " ++ e),
         ["🗿 SQLite database ready", "❌ Failed to create sub filesystem: " ++ e])
      | .ok _ =>
        (.running ⟨providers, modelRouter, h, cors, true, registeredRoutesProxy,
          ["/assets/"], ":" ++ cfg.serverPort, cfg.readTimeout, cfg.writeTimeout,
          cfg.idleTimeout, 30⟩,
         ["🗿 SQLite database ready"] ++ proxyDetectLogs env.getenv
           ++ serverStartLogsProxy cfg.serverPort)

/-- Embedded from `src/unnamed/part_000` `main` (lines 25–145): startup
wiring of the unnamed entrypoint variant — identical construction, without
the proxy-environment detection block and without the usage-hint log
lines. -/
def mainUnnamed (env : StartupEnv) : StartupResult × List String :=
  match env.configResult with
  | .error e =>
    (.fatal ("❌ Failed to load configuration: " ++ e),
     ["❌ Failed to load configuration: " ++ e])
  | .ok cfg =>
    let providers := [("anthropic", NewAnthropicProvider cfg.providersAnthropic),
                      ("openai", NewOpenAIProvider cfg.providersOpenAI)]
    let modelRouter := NewModelRouter cfg providers
    let anthropicService := NewAnthropicService cfg.anthropic
    match env.storageResult with
    | .error e =>
      (.fatal ("❌ Failed to initialize SQLite storage: " ++ e),
       ["❌ Failed to initialize SQLite storage: " ++ e])
    | .ok storageService =>
      let h : HandlerWiring := ⟨some anthropicService, storageService, modelRouter⟩
      let cors : CorsCfg := ⟨["*"], ["GET", "POST", "PUT", "DELETE", "OPTIONS"], ["*"]⟩
      match env.subFSResult with
      | .error e =>
        (.fatal ("❌ Failed to create sub filesystem: " ++ e),
         ["🗿 SQLite database ready", "❌ Failed to create sub filesystem: " ++ e])
      | .ok _ =>
        (.running ⟨providers, modelRouter, h, cors, true, registeredRoutesUnnamed,
          ["/assets/"], ":" ++ cfg.serverPort, cfg.readTimeout, cfg.writeTimeout,
          cfg.idleTimeout, 30⟩,
         ["🗿 SQLite database ready"] ++ serverStartLogsUnnamed cfg.serverPort)

/-- A concrete configuration used to instantiate the entrypoint theorems. -/
def cfg0 : AppConfig :=
  ⟨"anthropic-cfg", "openai-cfg", "legacy-anthropic-cfg", "sqlite-cfg", "3001", 600, 600, 600⟩

/-- A concrete environment in which every startup collaborator succeeds and
no proxy environment variable is set. -/
def envOk : StartupEnv :=
  ⟨.ok cfg0, .ok "sqlite-storage", .ok (), fun _ => ""⟩

/-- A concrete environment in which SQLite storage construction fails. -/
def envStorageFail : StartupEnv :=
  ⟨.ok cfg0, .error "unable to open database file", .ok (), fun _ => ""⟩

/-- Projection: the legacy Anthropic service carried by the handler of a
running startup result; `none` when startup aborted. -/
def runningLegacyService : StartupResult → Option String
  | .running s => s.handler.anthropicService
  | .fatal _ => none

/-- Embedded from `src/proxy/cmd/proxy/main.go` lines 85–106: the possible
responses of the NotFoundHandler closure — the API NotFound response, the
named embedded file served by the file server, or index.html written with
an explicit Content-Type. -/
inductive SpaResponse
  | apiNotFound
  | serveFile (path : String)
  | serveIndex (contentType : String) (body : String)
deriving DecidableEq

/-- Embedded from Go's strings.HasPrefix: character-level test that `s`
starts with `p`. -/
def goHasPre (s p : String) : Bool := p.data.isPrefixOf s.data

/-- Embedded from `strings.TrimPrefix(req.URL.Path, "/")`: drop one leading
slash when present. -/
def goTrimSlash (s : String) : String :=
  if goHasPre s "/" then String.mk (s.data.drop 1) else s

/-- Embedded from `src/proxy/cmd/proxy/main.go` lines 85–106 (identical in
`src/unnamed/part_000`): the mux NotFoundHandler — `/api/` and `/v1/` paths
get the handler's API NotFound response; other paths serve the named file
from the embedded dist filesystem when it opens, else fall back to
index.html with Content-Type text/html, else the API NotFound response.
The embedded filesystem is given as a map from file name to content. -/
def spaFallback (distFS : String → Option String) (path : String) : SpaResponse :=
  if goHasPre path "/api/" || goHasPre path "/v1/" then .apiNotFound
  else
    match distFS (goTrimSlash path) with
    | some _ => .serveFile path
    | none =>
      match distFS "index.html" with
      | some html => .serveIndex "text/html" html
      | none => .apiNotFound

/-- A concrete embedded filesystem: an index page and a favicon. -/
def distFS0 : String → Option String :=
  fun name =>
    if name = "index.html" then some "<spa-index>"
    else if name = "favicon.ico" then some "favicon-bytes"
    else none

/-! ## Theorems -/

theorem toolCallsOfBlocks_map (tcs : List OAIToolCall) :
    toolCallsOfBlocks (tcs.map (fun tc => .toolUse tc.id tc.name tc.arguments)) = .ok tcs := by
  induction tcs with
  | nil => rfl
  | cons tc rest ih =>
    cases tc
    simp [toolCallsOfBlocks, ih]

theorem oaiMessage_left_inv (m : OAIMessage) (c : CMessage)
    (h : oaiMessageToCanonical m = .ok c) : canonicalMessageToOAI c = .ok m := by
  obtain ⟨role, content, toolCalls, toolCallId⟩ := m
  simp only [oaiMessageToCanonical] at h
  split at h
  · split at h
    · rename_i hrole hcond
      obtain ⟨h1, h2⟩ := hcond
      cases h
      simp_all [canonicalMessageToOAI]
    · exact nomatch h
  · split at h
    · split at h
      · rename_i hrole hcond
        obtain ⟨h1, h2⟩ := hcond
        cases h
        simp_all [canonicalMessageToOAI]
      · exact nomatch h
    · split at h
      · split at h
        · rename_i hrole hid
          cases h
          simp_all [canonicalMessageToOAI, toolCallsOfBlocks_map]
        · exact nomatch h
      · split at h
        · split at h
          · rename_i hrole hsome
            split at h
            · rename_i hcalls
              cases h
              simp_all [canonicalMessageToOAI]
            · exact nomatch h
          · exact nomatch h
        · exact nomatch h

theorem oaiMessages_left_inv (ms : List OAIMessage) (cs : List CMessage)
    (h : oaiMessagesToCanonical ms = .ok cs) : canonicalMessagesToOAI cs = .ok ms := by
  induction ms generalizing cs with
  | nil =>
    simp only [oaiMessagesToCanonical] at h
    cases h
    rfl
  | cons m rest ih =>
    simp only [oaiMessagesToCanonical] at h
    split at h
    · exact nomatch h
    · rename_i c hc
      split at h
      · exact nomatch h
      · rename_i cs' hcs
        cases h
        simp [canonicalMessagesToOAI, oaiMessage_left_inv m c hc, ih cs' hcs]

theorem oaiTools_map_map (ts : List OAITool) :
    ts.map ((fun t : CToolDef => (⟨t.name, t.description, t.schemaJson⟩ : OAITool)) ∘
      (fun t : OAITool => (⟨t.name, t.description, t.schemaJson⟩ : CToolDef))) = ts := by
  induction ts with
  | nil => rfl
  | cons t rest ih => cases t; simp [ih, Function.comp]

theorem toCanonicalOpenAI_left_inv (r : OpenAIRequest) (c : CanonicalRequest)
    (h : toCanonicalOpenAI r = .ok c) : fromCanonicalOpenAI c = .ok r := by
  obtain ⟨model, messages, tools, temperature, maxTokens, topP, stop, stream⟩ := r
  simp only [toCanonicalOpenAI] at h
  split at h
  · exact nomatch h
  · split at h
    · exact nomatch h
    · rename_i ms hms
      cases h
      simp [fromCanonicalOpenAI, oaiMessages_left_inv _ _ hms, oaiTools_map_map]

theorem userBlocks_left_inv (bs : List ABlock) (cs : List CBlock)
    (h : userBlocksToCanonical bs = .ok cs) : userBlocksFromCanonical cs = .ok bs := by
  induction bs generalizing cs with
  | nil =>
    simp only [userBlocksToCanonical] at h
    cases h
    rfl
  | cons b rest ih =>
    cases b with
    | text s =>
      simp only [userBlocksToCanonical] at h
      split at h
      · rename_i bs' hbs
        cases h
        simp [userBlocksFromCanonical, ih bs' hbs]
      · exact nomatch h
    | image m d =>
      simp only [userBlocksToCanonical] at h
      split at h
      · rename_i bs' hbs
        cases h
        simp [userBlocksFromCanonical, ih bs' hbs]
      · exact nomatch h
    | toolUse i n a => exact nomatch h
    | toolResult i s => exact nomatch h

theorem assistantBlocks_left_inv (bs : List ABlock) (cs : List CBlock)
    (h : assistantBlocksToCanonical bs = .ok cs) : assistantBlocksFromCanonical cs = .ok bs := by
  induction bs generalizing cs with
  | nil =>
    simp only [assistantBlocksToCanonical] at h
    cases h
    rfl
  | cons b rest ih =>
    cases b with
    | text s =>
      simp only [assistantBlocksToCanonical] at h
      split at h
      · rename_i bs' hbs
        cases h
        simp [assistantBlocksFromCanonical, ih bs' hbs]
      · exact nomatch h
    | image m d =>
      simp only [assistantBlocksToCanonical] at h
      split at h
      · rename_i bs' hbs
        cases h
        simp [assistantBlocksFromCanonical, ih bs' hbs]
      · exact nomatch h
    | toolUse i n a =>
      simp only [assistantBlocksToCanonical] at h
      split at h
      · rename_i bs' hbs
        cases h
        simp [assistantBlocksFromCanonical, ih bs' hbs]
      · exact nomatch h
    | toolResult i s => exact nomatch h

theorem anthropicMessage_left_inv (m : AMessage) (c : CMessage)
    (h : anthropicMessageToCanonical m = .ok c) : canonicalMessageToAnthropic c = .ok m := by
  obtain ⟨role, content⟩ := m
  simp only [anthropicMessageToCanonical] at h
  split at h
  · rename_i hrole
    split at h
    · rename_i i s
      cases h
      simp_all [canonicalMessageToAnthropic]
    · split at h
      · rename_i bs hbs
        cases h
        simp_all [canonicalMessageToAnthropic, userBlocks_left_inv _ _ hbs]
      · exact nomatch h
  · split at h
    · rename_i hrole
      split at h
      · rename_i bs hbs
        cases h
        simp_all [canonicalMessageToAnthropic, assistantBlocks_left_inv _ _ hbs]
      · exact nomatch h
    · exact nomatch h

theorem anthropicMessage_role_ne_system (m : AMessage) (c : CMessage)
    (h : anthropicMessageToCanonical m = .ok c) : c.role ≠ .system := by
  obtain ⟨role, content⟩ := m
  simp only [anthropicMessageToCanonical] at h
  split at h
  · split at h
    · cases h; simp
    · split at h
      · cases h; simp
      · exact nomatch h
  · split at h
    · split at h
      · cases h; simp
      · exact nomatch h
    · exact nomatch h

theorem anthropicMessages_left_inv (ms : List AMessage) (cs : List CMessage)
    (h : anthropicMessagesToCanonical ms = .ok cs) :
    canonicalMessagesToAnthropic cs = .ok ms := by
  induction ms generalizing cs with
  | nil =>
    simp only [anthropicMessagesToCanonical] at h
    cases h
    rfl
  | cons m rest ih =>
    simp only [anthropicMessagesToCanonical] at h
    split at h
    · exact nomatch h
    · rename_i c hc
      split at h
      · exact nomatch h
      · rename_i cs' hcs
        cases h
        simp [canonicalMessagesToAnthropic, anthropicMessage_left_inv m c hc, ih cs' hcs]

theorem anthropicMessages_no_system (ms : List AMessage) (cs : List CMessage)
    (h : anthropicMessagesToCanonical ms = .ok cs) : ∀ c ∈ cs, c.role ≠ .system := by
  induction ms generalizing cs with
  | nil =>
    simp only [anthropicMessagesToCanonical] at h
    cases h
    simp
  | cons m rest ih =>
    simp only [anthropicMessagesToCanonical] at h
    split at h
    · exact nomatch h
    · rename_i c hc
      split at h
      · exact nomatch h
      · rename_i cs' hcs
        cases h
        intro x hx
        rcases List.mem_cons.mp hx with hx | hx
        · exact hx ▸ anthropicMessage_role_ne_system m c hc
        · exact ih cs' hcs x hx

theorem splitSystem_no_system (ms : List CMessage)
    (h : ∀ c ∈ ms, c.role ≠ .system) : splitSystem ms = (none, ms) := by
  cases ms with
  | nil => rfl
  | cons c rest =>
    obtain ⟨role, content⟩ := c
    cases role with
    | system => exact absurd rfl (h ⟨.system, content⟩ (List.mem_cons_self _ _))
    | user => rfl
    | assistant => rfl
    | tool => rfl

theorem aTools_map_map (ts : List ATool) :
    ts.map ((fun t : CToolDef => (⟨t.name, t.description, t.schemaJson⟩ : ATool)) ∘
      (fun t : ATool => (⟨t.name, t.description, t.schemaJson⟩ : CToolDef))) = ts := by
  induction ts with
  | nil => rfl
  | cons t rest ih => cases t; simp [ih, Function.comp]

theorem toCanonicalAnthropic_left_inv (r : AnthropicRequest) (c : CanonicalRequest)
    (h : toCanonicalAnthropic r = .ok c) : fromCanonicalAnthropic c = .ok r := by
  obtain ⟨model, system, messages, tools, temperature, maxTokens, topP, stopSequences, stream⟩ := r
  simp only [toCanonicalAnthropic] at h
  split at h
  · exact nomatch h
  · split at h
    · exact nomatch h
    · rename_i ms hms
      cases h
      cases system with
      | some s =>
        simp [fromCanonicalAnthropic, splitSystem,
          anthropicMessages_left_inv _ _ hms, aTools_map_map]
      | none =>
        have hsplit := splitSystem_no_system ms (anthropicMessages_no_system _ _ hms)
        simp [fromCanonicalAnthropic, hsplit,
          anthropicMessages_left_inv _ _ hms, aTools_map_map]

/-- C2: for every request constructible from the OpenAI schema, translating
to canonical form, serializing back out, and translating to canonical form
again yields the same canonical form as the first translation (idempotent
translation), and likewise for the Anthropic wire format. -/
theorem roundtrip_translation_idempotent (ro : OpenAIRequest) (ra : AnthropicRequest) :
    ((toCanonicalOpenAI ro).bind fromCanonicalOpenAI).bind toCanonicalOpenAI
      = toCanonicalOpenAI ro
    ∧ ((toCanonicalAnthropic ra).bind fromCanonicalAnthropic).bind toCanonicalAnthropic
      = toCanonicalAnthropic ra := by
  constructor
  · cases h : toCanonicalOpenAI ro with
    | error e => simp [Except.bind]
    | ok c =>
      have h2 := toCanonicalOpenAI_left_inv ro c h
      simp [Except.bind, h2, h]
  · cases h : toCanonicalAnthropic ra with
    | error e => simp [Except.bind]
    | ok c =>
      have h2 := toCanonicalAnthropic_left_inv ra c h
      simp [Except.bind, h2, h]

/-- C4: Route is a pure function of the fixed configuration and the inbound
model identifier — two invocations on the same identifier yield the same
(provider, upstream model) pair. -/
theorem Route_deterministic (rc : ModelRouterTable) (m₁ m₂ : String) (h : m₁ = m₂) :
    Route rc m₁ = Route rc m₂ := by
  rw [h]

/-- C4 witness: Route_deterministic instantiated at a concrete table and
identifier. -/
theorem Route_deterministic_witness :
    Route sampleTable "claude-3-haiku" = Route sampleTable "claude-3-haiku" :=
  Route_deterministic sampleTable "claude-3-haiku" "claude-3-haiku" rfl

/-- C5: Route returns the mapped (provider, upstream model) pair when the
inbound identifier is present in the static table, and the configured
default provider with the identifier passed through unchanged when it is
absent. -/
theorem Route_lookup_spec (rc : ModelRouterTable) (m : String) :
    (∀ p um, lookupMapping rc.modelMappings m = some (p, um) → Route rc m = (p, um))
    ∧ (lookupMapping rc.modelMappings m = none → Route rc m = (rc.defaultProvider, m)) := by
  constructor
  · intro p um h
    simp [Route, h]
  · intro h
    simp [Route, h]

/-- C5 witness: Route_lookup_spec instantiated on a concrete table — a
mapped identifier resolves to its table entry, an unmapped one falls back to
the default provider with the identifier passed through. -/
theorem Route_lookup_spec_witness :
    Route sampleTable "claude-3-haiku" = ("anthropic", "claude-3-haiku-20240307")
    ∧ Route sampleTable "gpt-4o" = ("openai", "gpt-4o") :=
  ⟨(Route_lookup_spec sampleTable "claude-3-haiku").1 "anthropic" "claude-3-haiku-20240307"
      (by decide),
   (Route_lookup_spec sampleTable "gpt-4o").2 (by decide)⟩

theorem stub500_shift (K : Nat) : (fun j => stub500 (K + 1) (j + 1)) = stub500 K := by
  funext j
  simp [stub500, Nat.add_lt_add_iff_right]

theorem attemptLoop_stub500 (N K : Nat) :
    attemptLoop (stub500 K) (N + 1) =
      if K < N + 1 then (.ok "ok-response", K + 1) else (.httpError 500, N + 1) := by
  induction N generalizing K with
  | zero =>
    cases K with
    | zero => simp [attemptLoop, stub500]
    | succ k => simp [attemptLoop, stub500]
  | succ n ih =>
    cases K with
    | zero =>
      simp [attemptLoop, stub500]
    | succ k =>
      have h0 : stub500 (k + 1) 0 = .httpError 500 := by simp [stub500]
      have hr : retryable (.httpError 500) = true := by decide
      by_cases hk : k < n + 1
      · simp [attemptLoop, h0, hr, stub500_shift, ih k, hk, Nat.add_lt_add_iff_right]
      · simp [attemptLoop, h0, hr, stub500_shift, ih k, hk, Nat.add_lt_add_iff_right]

/-- C1 counterexample: with the default max retry count 3 and a stub that
fails exactly K = 3 times, Execute gives up after 3 upstream calls, not the
K + 1 = 4 the claim demands, so the claim as stated fails at K = 3. -/
theorem Execute_retry_bound_cex :
    ¬ ((((Execute (.ok ()) (stub500 3) Except.ok 3).1 = .success "ok-response") ↔ 3 < 3)
       ∧ (Execute (.ok ()) (stub500 3) Except.ok 3).2 = 3 + 1) := by
  decide

/-- C1 (amended): against a provider stub that fails with a 500 exactly K
times then succeeds, Execute succeeds iff K is less than the configured max
retry count N (default 3); when it succeeds it issues exactly K + 1
upstream calls, and when it fails it issues exactly N. -/
theorem Execute_retry_bound (K N : Nat) (hN : 1 ≤ N) :
    ((Execute (.ok ()) (stub500 K) Except.ok N).1 = .success "ok-response" ↔ K < N)
    ∧ (K < N → (Execute (.ok ()) (stub500 K) Except.ok N).2 = K + 1)
    ∧ (N ≤ K → (Execute (.ok ()) (stub500 K) Except.ok N).2 = N) := by
  obtain ⟨n, rfl⟩ : ∃ n, N = n + 1 := ⟨N - 1, (Nat.succ_pred_eq_of_pos hN).symm⟩
  by_cases hk : K < n + 1
  · simp [Execute, attemptLoop_stub500, hk]
  · simp [Execute, attemptLoop_stub500, hk]

/-- C1 witness: Execute_retry_bound at K = 2, N = 3 — success after exactly
3 upstream calls. -/
theorem Execute_retry_bound_witness :
    (1 ≤ 3 ∧ ((Execute (.ok ()) (stub500 2) Except.ok 3).1 = .success "ok-response" ↔ 2 < 3))
    ∧ (Execute (.ok ()) (stub500 2) Except.ok 3).2 = 2 + 1 := by
  have h := Execute_retry_bound 2 3 (by decide)
  exact ⟨⟨by decide, h.1⟩, h.2.1 (by decide)⟩

theorem attemptLoop_first_ok (stub : Nat → UpstreamResult) (body : String) (N : Nat)
    (h : stub 0 = .ok body) (hN : 1 ≤ N) : attemptLoop stub N = (.ok body, 1) := by
  obtain ⟨n, rfl⟩ : ∃ n, N = n + 1 := ⟨N - 1, (Nat.succ_pred_eq_of_pos hN).symm⟩
  cases n with
  | zero => simp [attemptLoop, h]
  | succ m => simp [attemptLoop, h]

theorem attemptLoop_first_4xx (stub : Nat → UpstreamResult) (s N : Nat)
    (h : stub 0 = .httpError s) (h5 : ¬ 500 ≤ s) (h429 : s ≠ 429) (hN : 1 ≤ N) :
    attemptLoop stub N = (.httpError s, 1) := by
  obtain ⟨n, rfl⟩ : ∃ n, N = n + 1 := ⟨N - 1, (Nat.succ_pred_eq_of_pos hN).symm⟩
  have hr : retryable (.httpError s) = false := by
    have h1 : decide (500 ≤ s) = false := decide_eq_false h5
    have h2 : decide (s = 429) = false := decide_eq_false h429
    simp [retryable, h1, h2]
  cases n with
  | zero => simp [attemptLoop, h]
  | succ m => simp [attemptLoop, h, hr]

/-- C3 counterexample: a request whose inbound translation fails issues zero
upstream calls, not the exactly one the claim demands for every
TranslationError. -/
theorem Execute_no_retry_cex :
    (Execute (.error ⟨"unknown role"⟩) (fun _ => .httpError 500) Except.ok 3).2 = 0
    ∧ (Execute (.error ⟨"unknown role"⟩) (fun _ => .httpError 500) Except.ok 3).2 ≠ 1 := by
  decide

/-- C3 (amended): Execute never retries a non-transient outcome: a first
upstream response with a 4xx status other than 429 yields exactly one
upstream call and the error propagates; a TranslationError is never
retried — an inbound translation error precedes the provider call and
yields zero upstream calls, an outbound translation error follows a single
successful call and yields exactly one. -/
theorem Execute_no_retry (N : Nat) (hN : 1 ≤ N) :
    (∀ (s : Nat) (stub : Nat → UpstreamResult), 400 ≤ s → s < 500 → s ≠ 429 →
        stub 0 = .httpError s →
        Execute (.ok ()) stub Except.ok N = (.upstreamError (.httpError s), 1))
    ∧ (∀ (e : TranslationError) (stub : Nat → UpstreamResult)
        (trOut : String → Except TranslationError String),
        Execute (.error e) stub trOut N = (.translationError e, 0))
    ∧ (∀ (stub : Nat → UpstreamResult) (body : String) (e : TranslationError)
        (trOut : String → Except TranslationError String),
        stub 0 = .ok body → trOut body = .error e →
        Execute (.ok ()) stub trOut N = (.translationError e, 1)) := by
  refine ⟨?_, ?_, ?_⟩
  · intro s stub h4 h5 h429 hstub
    have hloop := attemptLoop_first_4xx stub s N hstub (by omega) h429 hN
    simp [Execute, hloop]
  · intro e stub trOut
    rfl
  · intro stub body e trOut hstub htr
    have hloop := attemptLoop_first_ok stub body N hstub hN
    simp [Execute, hloop, htr]

/-- C3 witness: Execute_no_retry at the default max retry count 3 — a
stubbed 400 produces one upstream call, an inbound translation error
produces zero, an outbound translation error after one successful call
produces one. -/
theorem Execute_no_retry_witness :
    Execute (.ok ()) (fun _ => .httpError 400) Except.ok 3
      = (.upstreamError (.httpError 400), 1)
    ∧ Execute (.error ⟨"empty message list"⟩) (fun _ => .httpError 500) Except.ok 3
      = (.translationError ⟨"empty message list"⟩, 0)
    ∧ Execute (.ok ()) (fun _ => .ok "body") (fun _ => .error ⟨"unmapped stop reason"⟩) 3
      = (.translationError ⟨"unmapped stop reason"⟩, 1) := by
  have h := Execute_no_retry 3 (by decide)
  exact ⟨h.1 400 _ (by decide) (by decide) (by decide) rfl,
         h.2.1 ⟨"empty message list"⟩ _ _,
         h.2.2 _ "body" ⟨"unmapped stop reason"⟩ _ rfl rfl⟩

/-- C6: if SQLite storage construction fails at startup, main aborts with
the fatal storage message and never reaches a running server (no degraded
mode). -/
theorem storage_failure_fatal (env : StartupEnv) (cfg : AppConfig) (e : String)
    (hc : env.configResult = .ok cfg) (hs : env.storageResult = .error e) :
    (mainProxy env).1 = .fatal ("❌ Failed to initialize SQLite storage: " ++ e)
    ∧ ∀ s, (mainProxy env).1 ≠ .running s := by
  constructor
  · simp [mainProxy, hc, hs]
  · intro s
    simp [mainProxy, hc, hs]

/-- C6 witness: storage_failure_fatal at a concrete environment whose
storage constructor fails. -/
theorem storage_failure_fatal_witness :
    (mainProxy envStorageFail).1
      = .fatal ("❌ Failed to initialize SQLite storage: " ++ "unable to open database file")
    ∧ ∀ s, (mainProxy envStorageFail).1 ≠ .running s := by
  have h := storage_failure_fatal envStorageFail cfg0 "unable to open database file" rfl rfl
  exact ⟨h.1, h.2⟩

/-- C7 counterexample: at a concrete successful startup the constructed
gateway handler carries the legacy Anthropic service alongside the model
router, so a separate legacy path does coexist with the router, contrary to
the claim. -/
theorem single_router_cex :
    runningLegacyService (mainProxy envOk).1 ≠ none := by
  decide

/-- C7 (amended): the gateway handler is constructed with the Model Router
together with the legacy Anthropic service — the two upstream-forwarding
paths coexist in the entrypoint; the single-router redesign in the spec's
design note is a recommendation, not the current state. -/
theorem single_router_amended (env : StartupEnv) (cfg : AppConfig) (st : String)
    (hc : env.configResult = .ok cfg) (hs : env.storageResult = .ok st)
    (hf : env.subFSResult = .ok ()) :
    ∃ s, (mainProxy env).1 = .running s
      ∧ s.handler.anthropicService = some (NewAnthropicService cfg.anthropic)
      ∧ s.handler.modelRouter = NewModelRouter cfg
          [("anthropic", NewAnthropicProvider cfg.providersAnthropic),
           ("openai", NewOpenAIProvider cfg.providersOpenAI)] := by
  simp only [mainProxy, hc, hs, hf]
  exact ⟨_, rfl, rfl, rfl⟩

/-- C7 amended witness: single_router_amended at the concrete successful
environment. -/
theorem single_router_amended_witness :
    ∃ s, (mainProxy envOk).1 = .running s
      ∧ s.handler.anthropicService = some (NewAnthropicService cfg0.anthropic)
      ∧ s.handler.modelRouter = NewModelRouter cfg0
          [("anthropic", NewAnthropicProvider cfg0.providersAnthropic),
           ("openai", NewOpenAIProvider cfg0.providersOpenAI)] :=
  single_router_amended envOk cfg0 "sqlite-storage" rfl rfl rfl

/-- C8: the method-dispatched routes registered by main are exactly the
spec's HTTP surface — the same method–path pairs up to registration
order — and the unnamed entrypoint variant registers the same routes. -/
theorem routes_match_spec :
    List.Perm registeredRoutesProxy specSurface
    ∧ registeredRoutesUnnamed = registeredRoutesProxy := by
  constructor
  · decide
  · rfl

/-- C9 counterexample: at a concrete successful startup the Claude-Code
usage-hint line appears only in the proxy variant's startup log, so the two
entrypoints' logs differ in more than the proxy-environment detection
messages. -/
theorem entrypoints_equivalent_cex :
    "👉 To use with Claude Code, run:" ∈ (mainProxy envOk).2
    ∧ "👉 To use with Claude Code, run:" ∉ (mainUnnamed envOk).2 := by
  decide

/-- C9 (amended): the two entrypoint variants construct behaviorally
equivalent servers — for every environment the startup outcome (providers,
router, legacy service, storage, handler wiring, CORS, routes, timeouts,
shutdown budget, or the fatal exit) is identical; they differ only in
startup log output, namely the proxy-environment detection messages and the
Claude-Code usage-hint lines printed only by the proxy variant. -/
theorem entrypoints_equivalent (env : StartupEnv) :
    (mainProxy env).1 = (mainUnnamed env).1 := by
  cases hc : env.configResult with
  | error e => simp [mainProxy, mainUnnamed, hc]
  | ok cfg =>
    cases hs : env.storageResult with
    | error e => simp [mainProxy, mainUnnamed, hc, hs]
    | ok st =>
      cases hf : env.subFSResult with
      | error e => simp [mainProxy, mainUnnamed, hc, hs, hf]
      | ok u =>
        simp [mainProxy, mainUnnamed, hc, hs, hf,
          registeredRoutesProxy, registeredRoutesUnnamed]

/-- C10: an unmatched path under /api/ or /v1/ always gets the API NotFound
response and never the SPA index; any other unmatched path serves the named
embedded file when it exists, else index.html with Content-Type text/html,
else the API NotFound response. -/
theorem spa_fallback_spec (distFS : String → Option String) (path : String) :
    ((goHasPre path "/api/" = true ∨ goHasPre path "/v1/" = true) →
        spaFallback distFS path = .apiNotFound
        ∧ ∀ ct body, spaFallback distFS path ≠ .serveIndex ct body)
    ∧ (goHasPre path "/api/" = false → goHasPre path "/v1/" = false →
        (∀ content, distFS (goTrimSlash path) = some content →
            spaFallback distFS path = .serveFile path)
        ∧ (distFS (goTrimSlash path) = none →
            (∀ html, distFS "index.html" = some html →
                spaFallback distFS path = .serveIndex "text/html" html)
            ∧ (distFS "index.html" = none → spaFallback distFS path = .apiNotFound))) := by
  constructor
  · intro h
    have hb : (goHasPre path "/api/" || goHasPre path "/v1/") = true := by
      rcases h with h | h <;> simp [h]
    constructor
    · simp [spaFallback, hb]
    · intro ct body
      simp [spaFallback, hb]
  · intro h1 h2
    have hb : (goHasPre path "/api/" || goHasPre path "/v1/") = false := by
      simp [h1, h2]
    constructor
    · intro content hc
      simp [spaFallback, hb, hc]
    · intro hn
      constructor
      · intro html hh
        simp [spaFallback, hb, hn, hh]
      · intro hh
        simp [spaFallback, hb, hn, hh]

/-- C10 witness: spa_fallback_spec on the concrete filesystem — an /api/
path 404s, the favicon is served directly, an SPA route falls back to
index.html with Content-Type text/html. -/
theorem spa_fallback_spec_witness :
    spaFallback distFS0 "/api/missing" = .apiNotFound
    ∧ spaFallback distFS0 "/favicon.ico" = .serveFile "/favicon.ico"
    ∧ spaFallback distFS0 "/dashboard" = .serveIndex "text/html" "<spa-index>" := by
  refine ⟨((spa_fallback_spec distFS0 "/api/missing").1 (Or.inl (by decide))).1, ?_, ?_⟩
  · exact ((spa_fallback_spec distFS0 "/favicon.ico").2 (by decide) (by decide)).1
      "favicon-bytes" (by decide)
  · exact (((spa_fallback_spec distFS0 "/dashboard").2 (by decide) (by decide)).2
      (by decide)).1 "<spa-index>" (by decide)
